import Mathlib

/-!
Verification of the sensor.community adapter plugin
(`src/sensordotcommunity/main.py`, class `SensorDotCommunity`).

The adapter receives a JSON report from an air-quality station, classifies
each metric reading, resolves (or registers) a managed sensor at the remote
gateway and pushes the value.  We embed the handler `api` together with the
helpers `_get_known_sensors`, `_register_sensor` and `_update_sensor` as pure
Lean functions.  The remote gateway (`self.webinterface`) is abstracted as a
state machine `Gateway σ` supplying the three outbound calls; the embedding
threads the gateway state explicitly and records the chronological list of
outbound calls, so that claims about "exactly one registration call" become
statements about that trace.

Numeric values: the handler calls Python `float` on the wire string.  The
claims only ever compare a parsed value with itself, so we model the parse
result exactly as a rational number produced by a decimal parser `pyFloat`
covering the decimal-literal forms of the wire format (optional sign, digits,
optional fraction, optional exponent); strings rejected by `pyFloat` model
strings on which `float` raises `ValueError` and the request dies with an
uncaught exception.
-/

namespace SensorDotCommunity

/-- Adapter name, `SensorDotCommunity.name` in the source. -/
def pluginName : String := "SensorDotCommunity"

/-- Value of the digit list `l`, most significant first. -/
def digitsVal (l : List Char) : Nat :=
  l.foldl (fun n c => n * 10 + (c.toNat - 48)) 0

/-- Split `l` at the first character satisfying `p`; the second component is
`none` when no character matches. -/
def splitOnChar (p : Char → Bool) : List Char → List Char × Option (List Char)
  | [] => ([], none)
  | c :: rest =>
    if p c then ([], some rest)
    else
      let r := splitOnChar p rest
      (c :: r.1, r.2)

/-- Embedding of Python `float(s)` on the wire format's string-encoded
numbers: optional sign, decimal digits with an optional point (at least one
digit), optional exponent.  Returns `none` when `float` would raise
`ValueError` (aborting the request). -/
def pyFloat (s : String) : Option Rat :=
  let l := s.toList
  let signAndRest : Int × List Char :=
    match l with
    | '-' :: rest => (-1, rest)
    | '+' :: rest => (1, rest)
    | _ => (1, l)
  let mantExp := splitOnChar (fun c => c == 'e' || c == 'E') signAndRest.2
  let intFrac := splitOnChar (fun c => c == '.') mantExp.1
  let fracPart := intFrac.2.getD []
  if intFrac.1.all Char.isDigit && fracPart.all Char.isDigit &&
      decide (0 < intFrac.1.length + fracPart.length) then
    let expVal : Option Int :=
      match mantExp.2 with
      | none => some 0
      | some e =>
        let esignAndRest : Int × List Char :=
          match e with
          | '-' :: rest => (-1, rest)
          | '+' :: rest => (1, rest)
          | _ => (1, e)
        if decide (0 < esignAndRest.2.length) && esignAndRest.2.all Char.isDigit then
          some (esignAndRest.1 * digitsVal esignAndRest.2)
        else none
    match expVal with
    | none => none
    | some ex =>
      let m : Int := signAndRest.1 * digitsVal (intFrac.1 ++ fracPart)
      some (mkRat (m * Int.pow 10 ex.toNat)
        (Nat.pow 10 (fracPart.length + (-ex).toNat)))
  else none

/-- Embedding of the metric classifier, the `if value_type == ... / elif`
chain of `api` (main.py lines 114-132): the (name, physical_quantity, unit)
triple for a supported `value_type`, `none` for an unsupported one. -/
def classify (value_type : String) : Option (String × String × String) :=
  if value_type = "temperature" then some ("Temperature", "temperature", "celcius")
  else if value_type = "humidity" then some ("Humidity", "humidity", "percent")
  else if value_type = "SDS_P1" then some ("PM10", "dust", "micro_gram_per_cubic_meter")
  else if value_type = "SDS_P2" then some ("PM2.5", "dust", "micro_gram_per_cubic_meter")
  else none

/-- Classifier following the spec's words (§4.2 table), for comparison with
`classify`: identical except that the table spells the temperature unit
"celsius". -/
def specClassify (value_type : String) : Option (String × String × String) :=
  if value_type = "temperature" then some ("Temperature", "temperature", "celsius")
  else if value_type = "humidity" then some ("Humidity", "humidity", "percent")
  else if value_type = "SDS_P1" then some ("PM10", "dust", "micro_gram_per_cubic_meter")
  else if value_type = "SDS_P2" then some ("PM2.5", "dust", "micro_gram_per_cubic_meter")
  else none

/-- One element of the JSON `sensordatavalues` array: a metric reading with
its `value_type` and string-encoded `value`. -/
structure Entry where
  value_type : String
  value : String
deriving DecidableEq, Repr

/-- Parsed JSON request body (`json.loads(body)`); a `none` component models
the key being absent from the JSON object. -/
structure ReportData where
  esp8266id : Option String
  sensordatavalues : Option (List Entry)
deriving DecidableEq, Repr

/-- One entry of the gateway's sensor-configuration list, with the fields the
adapter reads: `id`, `external_id` (`none` models JSON null) and
`source.name` (`none` models a missing `source` object or `name` field). -/
structure SensorConfig where
  id : String
  external_id : Option String
  source_name : Option String
deriving DecidableEq, Repr

/-- Parsed JSON of a gateway response to `set_sensor_configuration` or
`set_sensor_status`: JSON null, or an object whose optional `success` field
is a boolean. -/
inductive ApiResponse where
  | null : ApiResponse
  | obj : Option Bool → ApiResponse
deriving DecidableEq, Repr

/-- Truthiness check of the source: the negation of
`data is None or not data.get('success', False)`. -/
def ApiResponse.isSuccess : ApiResponse → Bool
  | ApiResponse.null => false
  | ApiResponse.obj none => false
  | ApiResponse.obj (some b) => b

/-- Registration payload built by `_register_sensor` (main.py lines 176-182). -/
structure RegPayload where
  external_id : String
  source_type : String
  source_name : String
  name : String
  physical_quantity : String
  unit : String
deriving DecidableEq, Repr

/-- One outbound call to the gateway, as recorded in the call trace. -/
inductive Call where
  | getConfigurations : Call
  | setConfiguration : RegPayload → Call
  | setStatus : String → Rat → Call
deriving DecidableEq, Repr

/-- The remote gateway (`self.webinterface`), abstracted as a state machine
with state type `σ`: each outbound call returns its parsed response together
with the next gateway state. -/
structure Gateway (σ : Type) where
  getConfigurations : σ → List SensorConfig × σ
  setConfiguration : σ → RegPayload → ApiResponse × σ
  setStatus : σ → String → Rat → ApiResponse × σ

/-- HTTP-level result, `PluginWebResponse(status_code=..., body=...)`. -/
structure Response where
  status_code : Nat
  body : String
deriving DecidableEq, Repr

variable {σ : Type}

/-- Predicate of the re-fetch scan in `_register_sensor` (main.py line 191):
`x.get('external_id') == external_id and x.get('source', {}).get('name') ==
SensorDotCommunity.name`. -/
def registeredMatch (external_id : String) (x : SensorConfig) : Bool :=
  x.external_id == some external_id && x.source_name == some pluginName

/-- The dict comprehension of `_get_known_sensors` (main.py line 153), as the
association list of its (external_id, id) pairs in configuration order. -/
def knownFromConfig (config : List SensorConfig) : List (String × String) :=
  (config.filter (fun x => x.source_name == some pluginName
      && !(x.external_id == (none : Option String)) && !(x.external_id == some ""))).map
    (fun x => (x.external_id.getD "", x.id))

/-- Python dict lookup on the association list: the value of the last binding
of `k` (later duplicate keys overwrite earlier ones); `none` when `k` is not
a key, i.e. `k not in d.keys()`. -/
def dictLookup (l : List (String × String)) (k : String) : Option String :=
  (l.reverse.find? (fun p => p.1 == k)).map (fun p => p.2)

/-- Error message accumulated for an unresolved sensor (main.py line 142):
`'Sensor.community sensor {} ({}) not found'.format(name, sensor_external_id)`. -/
def notFoundMsg (name sensor_external_id : String) : String :=
  "Sensor.community sensor " ++ name ++ " (" ++ sensor_external_id ++ ") not found"

/-- Embedding of `SensorDotCommunity._get_known_sensors` (main.py lines
150-153): fetch the configuration snapshot and build the known-sensor map.
Returns the map, the next gateway state and the call made. -/
def _get_known_sensors (gw : Gateway σ) (s : σ) :
    List (String × String) × σ × List Call :=
  let r := gw.getConfigurations s
  (knownFromConfig r.1, r.2, [Call.getConfigurations])

/-- Embedding of `SensorDotCommunity._register_sensor` (main.py lines
174-193): submit the registration payload; on a non-success response return
no id; otherwise re-fetch the configuration and return the id of the first
entry matching the external id and the adapter's source name (`none` when no
entry matches). -/
def _register_sensor (gw : Gateway σ) (s : σ)
    (name external_id physical_quantity unit : String) :
    Option String × σ × List Call :=
  let data : RegPayload := ⟨external_id, "plugin", pluginName, name, physical_quantity, unit⟩
  let r := gw.setConfiguration s data
  if !r.1.isSuccess then
    (none, r.2, [Call.setConfiguration data])
  else
    let r2 := gw.getConfigurations r.2
    let sensor_id := (r2.1.find? (registeredMatch external_id)).map (fun x => x.id)
    (sensor_id, r2.2, [Call.setConfiguration data, Call.getConfigurations])

/-- Embedding of `SensorDotCommunity._update_sensor` (main.py lines 195-201):
push `{'id': sensor_id, 'value': value}`; a failing response is only logged
(`logger.warning`), so the response is discarded. -/
def _update_sensor (gw : Gateway σ) (s : σ) (sensor_id : String) (value : Rat) :
    σ × List Call :=
  let r := gw.setStatus s sensor_id value
  (r.2, [Call.setStatus sensor_id value])

/-- Loop of `api` over `data.get("sensordatavalues", [])` (main.py lines
110-144), threading the accumulated `errors` list and the gateway state and
recording the outbound calls in order.  An `Except.error` result models an
uncaught Python exception — `float(entry["value"])` raising `ValueError`,
which the source evaluates before the classification `if` chain — and aborts
the whole request. -/
def processEntries (gw : Gateway σ) (known : List (String × String))
    (device_id : String) :
    List Entry → List String → σ → Except String (List String) × σ × List Call
  | [], errors, s => (Except.ok errors, s, [])
  | entry :: rest, errors, s =>
    match pyFloat entry.value with
    | none => (Except.error ("could not convert string to float: " ++ entry.value), s, [])
    | some value =>
      let sensor_external_id := device_id ++ "/" ++ entry.value_type
      match classify entry.value_type with
      | none => processEntries gw known device_id rest errors s
      | some nqu =>
        match dictLookup known sensor_external_id with
        | some om_sensor_id =>
          let u := _update_sensor gw s om_sensor_id value
          let r := processEntries gw known device_id rest errors u.1
          (r.1, r.2.1, u.2 ++ r.2.2)
        | none =>
          let reg := _register_sensor gw s nqu.1 sensor_external_id nqu.2.1 nqu.2.2
          match reg.1 with
          | some om_sensor_id =>
            let u := _update_sensor gw reg.2.1 om_sensor_id value
            let r := processEntries gw known device_id rest errors u.1
            (r.1, r.2.1, reg.2.2 ++ u.2 ++ r.2.2)
          | none =>
            let msg := notFoundMsg nqu.1 sensor_external_id
            let r := processEntries gw known device_id rest (errors ++ [msg]) reg.2.1
            (r.1, r.2.1, reg.2.2 ++ r.2.2)

/-- Embedding of the request handler `SensorDotCommunity.api` (main.py lines
106-148) on an already-JSON-parsed body `data`: the response (or the uncaught
exception), the final gateway state and the chronological trace of outbound
calls.  As in the source, the configuration snapshot is fetched before
`data["esp8266id"]` is read. -/
def api (gw : Gateway σ) (s : σ) (data : ReportData) :
    Except String Response × σ × List Call :=
  let ks := _get_known_sensors gw s
  match data.esp8266id with
  | none => (Except.error "KeyError: esp8266id", ks.2.1, ks.2.2)
  | some device_id =>
    let r := processEntries gw ks.1 device_id (data.sensordatavalues.getD []) [] ks.2.1
    match r.1 with
    | Except.error e => (Except.error e, r.2.1, ks.2.2 ++ r.2.2)
    | Except.ok errors =>
      if errors ≠ [] then
        (Except.ok ⟨500, String.intercalate "\n" errors⟩, r.2.1, ks.2.2 ++ r.2.2)
      else
        (Except.ok ⟨200, "success"⟩, r.2.1, ks.2.2 ++ r.2.2)

/-- Sensor ids carried by the `set_sensor_status` calls of a trace, in
order: one per resolved-and-updated metric entry. -/
def statusIds (tr : List Call) : List String :=
  tr.filterMap (fun c => match c with
    | Call.setStatus i _ => some i
    | _ => none)

/-- Does the call register a sensor (`set_sensor_configuration`)? -/
def isSetConfiguration : Call → Bool
  | Call.setConfiguration _ => true
  | _ => false

/-- Gateway over a unit state whose every response reports success and whose
configuration list is empty; used to evaluate the handler on concrete
inputs. -/
def okGateway : Gateway Unit :=
  ⟨fun s => ([], s),
   fun s _ => (ApiResponse.obj (some true), s),
   fun s _ _ => (ApiResponse.obj (some true), s)⟩

/-- C1 counterexample: the claim asserts that classifying "temperature"
yields the spec table's triple, whose unit reads "celsius"; the code's
classifier yields the unit string "celcius", so the two disagree at the
concrete input "temperature". -/
theorem classify_temperature_differs_from_spec :
    classify "temperature" = some ("Temperature", "temperature", "celcius") ∧
    specClassify "temperature" = some ("Temperature", "temperature", "celsius") ∧
    classify "temperature" ≠ specClassify "temperature" := by
  refine ⟨rfl, rfl, ?_⟩
  decide

/-- C1 (amended): for every metric reading whose value_type is one of the
four supported strings, the classifier produces exactly the spec table's
(display name, physical_quantity, unit) triple, except that the temperature
unit is spelled "celcius"; any other value_type is unsupported. -/
theorem classify_table :
    classify "temperature" = some ("Temperature", "temperature", "celcius") ∧
    classify "humidity" = some ("Humidity", "humidity", "percent") ∧
    classify "SDS_P1" = some ("PM10", "dust", "micro_gram_per_cubic_meter") ∧
    classify "SDS_P2" = some ("PM2.5", "dust", "micro_gram_per_cubic_meter") ∧
    ∀ value_type : String,
      value_type ∉ ["temperature", "humidity", "SDS_P1", "SDS_P2"] →
      classify value_type = none := by
  refine ⟨rfl, rfl, rfl, rfl, ?_⟩
  intro value_type h
  simp only [List.mem_cons, List.not_mem_nil, or_false, not_or] at h
  obtain ⟨h1, h2, h3, h4⟩ := h
  simp [classify, h1, h2, h3, h4]

/-- Witness for the hypothesis-bearing conjunct of `classify_table` at the
concrete unsupported string "samples". -/
theorem classify_table_witness :
    "samples" ∉ ["temperature", "humidity", "SDS_P1", "SDS_P2"] ∧
    classify "samples" = none :=
  ⟨by decide, classify_table.2.2.2.2 "samples" (by decide)⟩

/-- C7: on a valid-JSON body, a missing "sensordatavalues" key behaves
exactly as an empty sequence and the request succeeds with 200 "success";
a missing "esp8266id" key is a fatal lookup error for the whole request, with
no metric entry processed (the trace holds only the initial configuration
fetch, which the source performs before reading the device id). -/
theorem api_missing_keys (gw : Gateway σ) (s : σ) (d : String)
    (sv : Option (List Entry)) :
    api gw s ⟨some d, none⟩ = api gw s ⟨some d, some []⟩ ∧
    api gw s ⟨some d, none⟩ =
      (Except.ok ⟨200, "success"⟩, (gw.getConfigurations s).2,
       [Call.getConfigurations]) ∧
    api gw s ⟨none, sv⟩ =
      (Except.error "KeyError: esp8266id", (gw.getConfigurations s).2,
       [Call.getConfigurations]) := by
  refine ⟨rfl, ?_, rfl⟩
  simp [api, _get_known_sensors, processEntries]

/-- C6: a metric entry with an unsupported value_type (and a value on which
`float` succeeds, as the wire format guarantees) is skipped entirely:
processing `entry :: rest` coincides with processing `rest` alone, so the
unsupported entry contributes no registration call, no status-update call,
no error message and no gateway-state change, and the remaining entries are
handled as if it were absent. -/
theorem processEntries_skips_unsupported (gw : Gateway σ)
    (known : List (String × String)) (device_id : String) (entry : Entry)
    (rest : List Entry) (errors : List String) (s : σ)
    (hc : classify entry.value_type = none)
    (hv : (pyFloat entry.value).isSome) :
    processEntries gw known device_id (entry :: rest) errors s =
      processEntries gw known device_id rest errors s := by
  obtain ⟨v, hv⟩ := Option.isSome_iff_exists.mp hv
  simp [processEntries, hv, hc]

/-- Witness for `processEntries_skips_unsupported`: the "samples" entry of
the documented firmware payload is skipped. -/
theorem processEntries_skips_unsupported_witness :
    classify "samples" = none ∧ (pyFloat "5029246").isSome ∧
    processEntries okGateway [] "12345678"
        [⟨"samples", "5029246"⟩, ⟨"temperature", "23.20"⟩] [] () =
      processEntries okGateway [] "12345678" [⟨"temperature", "23.20"⟩] [] () :=
  ⟨rfl, by decide,
   processEntries_skips_unsupported okGateway [] "12345678"
     ⟨"samples", "5029246"⟩ [⟨"temperature", "23.20"⟩] [] () rfl (by decide)⟩

/-- C4: a metric entry whose external id is already in the known sensor map
contributes zero registration calls and exactly one status-update call, with
the mapped sensor id and the float-parsed value; processing then continues
with the remaining entries from the updated gateway state. -/
theorem processEntries_known_entry (gw : Gateway σ)
    (known : List (String × String)) (device_id : String) (entry : Entry)
    (rest : List Entry) (errors : List String) (s : σ)
    (nqu : String × String × String) (v : Rat) (i : String)
    (hc : classify entry.value_type = some nqu)
    (hv : pyFloat entry.value = some v)
    (hk : dictLookup known (device_id ++ "/" ++ entry.value_type) = some i) :
    processEntries gw known device_id (entry :: rest) errors s =
      (let r := processEntries gw known device_id rest errors (gw.setStatus s i v).2
       (r.1, r.2.1, Call.setStatus i v :: r.2.2)) := by
  simp [processEntries, hv, hc, hk, _update_sensor]

/-- Witness for `processEntries_known_entry`: the spec's scenario, external
id "12345678/temperature" mapped to sensor id "42", value "23.20". -/
theorem processEntries_known_entry_witness :
    classify "temperature" = some ("Temperature", "temperature", "celcius") ∧
    pyFloat "23.20" = some (mkRat 116 5) ∧
    dictLookup [("12345678/temperature", "42")] ("12345678" ++ "/" ++ "temperature")
      = some "42" ∧
    processEntries okGateway [("12345678/temperature", "42")] "12345678"
        [⟨"temperature", "23.20"⟩] [] () =
      (let r := processEntries okGateway [("12345678/temperature", "42")] "12345678"
          [] [] (okGateway.setStatus () "42" (mkRat 116 5)).2
       (r.1, r.2.1, Call.setStatus "42" (mkRat 116 5) :: r.2.2)) :=
  ⟨rfl, by decide, by decide,
   processEntries_known_entry okGateway [("12345678/temperature", "42")] "12345678"
     ⟨"temperature", "23.20"⟩ [] [] () ("Temperature", "temperature", "celcius")
     (mkRat 116 5) "42" rfl (by decide) (by decide)⟩

/-- C2: a single-entry report with a supported metric whose external id is
unknown, when the registration response reports success and the re-fetched
configuration contains a matching entry with id `i`: the handler issues
exactly one registration call, then exactly one configuration re-fetch, then
exactly one status-update call carrying the float-parsed value, and responds
200 "success" (the leading `getConfigurations` in the trace is the initial
known-sensor fetch every request performs). -/
theorem api_registers_unknown_sensor (gw : Gateway σ) (s₀ : σ) (d : String)
    (entry : Entry) (nqu : String × String × String) (v : Rat) (i : String)
    (config₀ config₁ : List SensorConfig) (s₁ s₂ s₃ : σ) (resp : ApiResponse)
    (hc : classify entry.value_type = some nqu)
    (hv : pyFloat entry.value = some v)
    (h1 : gw.getConfigurations s₀ = (config₀, s₁))
    (hk : dictLookup (knownFromConfig config₀) (d ++ "/" ++ entry.value_type) = none)
    (h2 : gw.setConfiguration s₁
        ⟨d ++ "/" ++ entry.value_type, "plugin", pluginName, nqu.1, nqu.2.1, nqu.2.2⟩
        = (resp, s₂))
    (hsucc : resp.isSuccess = true)
    (h3 : gw.getConfigurations s₂ = (config₁, s₃))
    (hfind : (config₁.find? (registeredMatch (d ++ "/" ++ entry.value_type))).map
        (fun x => x.id) = some i) :
    api gw s₀ ⟨some d, some [entry]⟩ =
      (Except.ok ⟨200, "success"⟩, (gw.setStatus s₃ i v).2,
       [Call.getConfigurations,
        Call.setConfiguration
          ⟨d ++ "/" ++ entry.value_type, "plugin", pluginName, nqu.1, nqu.2.1, nqu.2.2⟩,
        Call.getConfigurations, Call.setStatus i v]) := by
  simp [api, _get_known_sensors, processEntries, _register_sensor, _update_sensor,
    h1, hk, h2, hsucc, h3, hfind, hv, hc]

/-- Gateway used to exercise the registration path on a concrete input: the
state counts the calls made; the first configuration fetch is empty, later
fetches contain the registered sensor with id "7"; every write reports
success. -/
def regGateway : Gateway Nat :=
  ⟨fun s => (if s = 0 then []
      else [⟨"7", some "12345678/temperature", some "SensorDotCommunity"⟩], s + 1),
   fun s _ => (ApiResponse.obj (some true), s + 1),
   fun s _ _ => (ApiResponse.obj (some true), s + 1)⟩

/-- Witness for `api_registers_unknown_sensor`: the spec's scenario, device
"12345678", a temperature reading "23.20", empty initial configuration. -/
theorem api_registers_unknown_sensor_witness :
    classify "temperature" = some ("Temperature", "temperature", "celcius") ∧
    pyFloat "23.20" = some (mkRat 116 5) ∧
    dictLookup (knownFromConfig []) ("12345678" ++ "/" ++ "temperature") = none ∧
    (ApiResponse.obj (some true)).isSuccess = true ∧
    (([⟨"7", some "12345678/temperature", some "SensorDotCommunity"⟩] :
        List SensorConfig).find?
      (registeredMatch ("12345678" ++ "/" ++ "temperature"))).map (fun x => x.id)
      = some "7" ∧
    api regGateway 0 ⟨some "12345678", some [⟨"temperature", "23.20"⟩]⟩ =
      (Except.ok ⟨200, "success"⟩, (regGateway.setStatus 3 "7" (mkRat 116 5)).2,
       [Call.getConfigurations,
        Call.setConfiguration
          ⟨"12345678" ++ "/" ++ "temperature", "plugin", pluginName,
           ("Temperature", "temperature", "celcius").1,
           ("Temperature", "temperature", "celcius").2.1,
           ("Temperature", "temperature", "celcius").2.2⟩,
        Call.getConfigurations, Call.setStatus "7" (mkRat 116 5)]) :=
  ⟨rfl, by decide, by decide, rfl, by decide,
   api_registers_unknown_sensor regGateway 0 "12345678" ⟨"temperature", "23.20"⟩
     ("Temperature", "temperature", "celcius") (mkRat 116 5) "7"
     [] [⟨"7", some "12345678/temperature", some "SensorDotCommunity"⟩]
     1 2 3 (ApiResponse.obj (some true))
     rfl (by decide) rfl (by decide) (by decide) rfl (by decide) (by decide)⟩

/-- Helper: a registration issues no status-update call, whatever its
outcome. -/
theorem statusIds_register (gw : Gateway σ) (s : σ)
    (name external_id physical_quantity unit : String) :
    statusIds (_register_sensor gw s name external_id physical_quantity unit).2.2
      = [] := by
  unfold _register_sensor
  cases h : (gw.setConfiguration s
      ⟨external_id, "plugin", pluginName, name, physical_quantity, unit⟩).1.isSuccess <;>
    simp [h, statusIds]

/-- Helper: with every value parseable the loop never aborts, the incoming
error list survives as a prefix of the final one, and each supported entry
contributes exactly one outcome — an error message or a status-update
call — regardless of what happened to the entries before it. -/
theorem processEntries_account (gw : Gateway σ) (known : List (String × String))
    (device_id : String) :
    ∀ (entries : List Entry) (errors : List String) (s : σ),
      (∀ e ∈ entries, (pyFloat e.value).isSome) →
      ∃ suffix s' tr,
        processEntries gw known device_id entries errors s =
          (Except.ok (errors ++ suffix), s', tr) ∧
        suffix.length + (statusIds tr).length =
          (entries.filter (fun e => (classify e.value_type).isSome)).length := by
  intro entries
  induction entries with
  | nil =>
    intro errors s _
    exact ⟨[], s, [], by simp [processEntries], by simp [statusIds]⟩
  | cons e rest ih =>
    intro errors s hv
    obtain ⟨v, hpf⟩ := Option.isSome_iff_exists.mp (hv e (List.mem_cons_self e rest))
    have hrest : ∀ e' ∈ rest, (pyFloat e'.value).isSome :=
      fun e' he' => hv e' (List.mem_cons_of_mem e he')
    cases hc : classify e.value_type with
    | none =>
      obtain ⟨suffix, s', tr, hp, hn⟩ := ih errors s hrest
      exact ⟨suffix, s', tr, by simp [processEntries, hpf, hc, hp],
        by simpa [hc] using hn⟩
    | some nqu =>
      cases hk : dictLookup known (device_id ++ "/" ++ e.value_type) with
      | some i =>
        obtain ⟨suffix, s', tr, hp, hn⟩ :=
          ih errors (_update_sensor gw s i v).1 hrest
        refine ⟨suffix, s', (_update_sensor gw s i v).2 ++ tr, ?_, ?_⟩
        · simp [processEntries, hpf, hc, hk, hp]
        · simp only [statusIds, List.filterMap_append] at hn ⊢
          simp [_update_sensor, hc, statusIds] at hn ⊢
          omega
      | none =>
        cases hreg : (_register_sensor gw s nqu.1 (device_id ++ "/" ++ e.value_type)
            nqu.2.1 nqu.2.2).1 with
        | some i =>
          obtain ⟨suffix, s', tr, hp, hn⟩ := ih errors
            (_update_sensor gw
              (_register_sensor gw s nqu.1 (device_id ++ "/" ++ e.value_type)
                nqu.2.1 nqu.2.2).2.1 i v).1 hrest
          refine ⟨suffix, s',
            (_register_sensor gw s nqu.1 (device_id ++ "/" ++ e.value_type)
              nqu.2.1 nqu.2.2).2.2 ++
              (_update_sensor gw
                (_register_sensor gw s nqu.1 (device_id ++ "/" ++ e.value_type)
                  nqu.2.1 nqu.2.2).2.1 i v).2 ++ tr, ?_, ?_⟩
          · simp [processEntries, hpf, hc, hk, hreg, hp]
          · simp only [statusIds, List.filterMap_append] at hn ⊢
            have hreg0 := statusIds_register gw s nqu.1
              (device_id ++ "/" ++ e.value_type) nqu.2.1 nqu.2.2
            simp only [statusIds] at hreg0
            simp [hreg0, _update_sensor, hc, statusIds] at hn ⊢
            omega
        | none =>
          obtain ⟨suffix, s', tr, hp, hn⟩ := ih
            (errors ++ [notFoundMsg nqu.1 (device_id ++ "/" ++ e.value_type)])
            (_register_sensor gw s nqu.1 (device_id ++ "/" ++ e.value_type)
              nqu.2.1 nqu.2.2).2.1 hrest
          refine ⟨notFoundMsg nqu.1 (device_id ++ "/" ++ e.value_type) :: suffix, s',
            (_register_sensor gw s nqu.1 (device_id ++ "/" ++ e.value_type)
              nqu.2.1 nqu.2.2).2.2 ++ tr, ?_, ?_⟩
          · simp [processEntries, hpf, hc, hk, hreg, hp]
          · simp only [statusIds, List.filterMap_append] at hn ⊢
            have hreg0 := statusIds_register gw s nqu.1
              (device_id ++ "/" ++ e.value_type) nqu.2.1 nqu.2.2
            simp only [statusIds] at hreg0
            simp [hreg0, hc, statusIds] at hn ⊢
            omega

/-- C8: errors while processing one metric never abort the loop over the
rest of the payload: with every value parseable (as the wire format
guarantees), processing always completes normally, the previously
accumulated errors survive as a prefix, and every supported entry — whatever
happened to the entries before it — is classified, resolved and contributes
exactly one outcome, so that new error messages plus status-update calls
number exactly the supported entries. -/
theorem processEntries_isolates_entry_failures (gw : Gateway σ)
    (known : List (String × String)) (device_id : String) (entries : List Entry)
    (errors : List String) (s : σ)
    (hv : ∀ e ∈ entries, (pyFloat e.value).isSome) :
    ∃ suffix s' tr,
      processEntries gw known device_id entries errors s =
        (Except.ok (errors ++ suffix), s', tr) ∧
      suffix.length + (statusIds tr).length =
        (entries.filter (fun e => (classify e.value_type).isSome)).length :=
  processEntries_account gw known device_id entries errors s hv

/-- Gateway over a unit state whose configuration list is empty and whose
write responses are JSON null, so every registration fails; used to exercise
the failure paths on concrete inputs. -/
def nullGateway : Gateway Unit :=
  ⟨fun s => ([], s),
   fun s _ => (ApiResponse.null, s),
   fun s _ _ => (ApiResponse.null, s)⟩

/-- Witness for `processEntries_isolates_entry_failures`: a three-entry
payload (two supported, one not) on a gateway that fails every registration
still processes all entries. -/
theorem processEntries_isolates_entry_failures_witness :
    (∀ e ∈ ([⟨"temperature", "23.20"⟩, ⟨"samples", "5029246"⟩,
        ⟨"humidity", "46.40"⟩] : List Entry), (pyFloat e.value).isSome) ∧
    (∃ suffix s' tr,
      processEntries nullGateway [] "12345678"
          [⟨"temperature", "23.20"⟩, ⟨"samples", "5029246"⟩,
           ⟨"humidity", "46.40"⟩] [] () =
        (Except.ok ([] ++ suffix), s', tr) ∧
      suffix.length + (statusIds tr).length =
        (([⟨"temperature", "23.20"⟩, ⟨"samples", "5029246"⟩,
            ⟨"humidity", "46.40"⟩] : List Entry).filter
          (fun e => (classify e.value_type).isSome)).length) :=
  ⟨by decide,
   processEntries_isolates_entry_failures nullGateway [] "12345678"
     [⟨"temperature", "23.20"⟩, ⟨"samples", "5029246"⟩, ⟨"humidity", "46.40"⟩]
     [] () (by decide)⟩

/-- C3: a supported entry whose registration fails — `_register_sensor`
returns no id because the set_sensor_configuration response lacks a truthy
success flag, or because the re-fetch finds no matching entry — triggers no
status-update call for that entry and appends exactly one error message
naming the unresolved sensor; the remaining entries are still processed
normally from the post-registration state, their successful updates staying
in the trace, and the request responds 500 with the newline-joined error
list, whose first message names the failed sensor. -/
theorem api_registration_failure (gw : Gateway σ) (s₀ : σ) (d : String)
    (entry : Entry) (rest : List Entry) (nqu : String × String × String)
    (v : Rat) (config₀ : List SensorConfig) (s₁ s₂ : σ) (calls₂ : List Call)
    (hc : classify entry.value_type = some nqu)
    (hv : pyFloat entry.value = some v)
    (h1 : gw.getConfigurations s₀ = (config₀, s₁))
    (hk : dictLookup (knownFromConfig config₀) (d ++ "/" ++ entry.value_type) = none)
    (hreg : _register_sensor gw s₁ nqu.1 (d ++ "/" ++ entry.value_type)
        nqu.2.1 nqu.2.2 = (none, s₂, calls₂))
    (hrest : ∀ e ∈ rest, (pyFloat e.value).isSome) :
    statusIds calls₂ = [] ∧
    ∃ suffix s₃ tr,
      processEntries gw (knownFromConfig config₀) d rest
          [notFoundMsg nqu.1 (d ++ "/" ++ entry.value_type)] s₂ =
        (Except.ok ([notFoundMsg nqu.1 (d ++ "/" ++ entry.value_type)] ++ suffix),
         s₃, tr) ∧
      api gw s₀ ⟨some d, some (entry :: rest)⟩ =
        (Except.ok ⟨500, String.intercalate "\n"
            (notFoundMsg nqu.1 (d ++ "/" ++ entry.value_type) :: suffix)⟩,
         s₃, Call.getConfigurations :: (calls₂ ++ tr)) := by
  constructor
  · have := statusIds_register gw s₁ nqu.1 (d ++ "/" ++ entry.value_type)
      nqu.2.1 nqu.2.2
    rw [hreg] at this
    exact this
  · obtain ⟨suffix, s₃, tr, hp, _⟩ := processEntries_account gw
      (knownFromConfig config₀) d rest
      [notFoundMsg nqu.1 (d ++ "/" ++ entry.value_type)] s₂ hrest
    refine ⟨suffix, s₃, tr, hp, ?_⟩
    simp [api, _get_known_sensors, processEntries, h1, hk, hreg, hv, hc, hp]

/-- Gateway over a unit state that knows the humidity sensor of device
"12345678" under id "9", rejects every registration (JSON null response) and
accepts updates; used to exercise a mixed failure/success request. -/
def partialGateway : Gateway Unit :=
  ⟨fun s => ([⟨"9", some "12345678/humidity", some "SensorDotCommunity"⟩], s),
   fun s _ => (ApiResponse.null, s),
   fun s _ _ => (ApiResponse.obj (some true), s)⟩

/-- Witness for `api_registration_failure`: the temperature registration
fails on `partialGateway`, the humidity entry of the same request still
resolves and is updated. -/
theorem api_registration_failure_witness :
    classify "temperature" = some ("Temperature", "temperature", "celcius") ∧
    pyFloat "23.20" = some (mkRat 116 5) ∧
    partialGateway.getConfigurations () =
      ([⟨"9", some "12345678/humidity", some "SensorDotCommunity"⟩], ()) ∧
    dictLookup (knownFromConfig
        [⟨"9", some "12345678/humidity", some "SensorDotCommunity"⟩])
      ("12345678" ++ "/" ++ "temperature") = none ∧
    _register_sensor partialGateway () "Temperature"
        ("12345678" ++ "/" ++ "temperature") "temperature" "celcius" =
      (none, (), [Call.setConfiguration
        ⟨"12345678" ++ "/" ++ "temperature", "plugin", pluginName,
         "Temperature", "temperature", "celcius"⟩]) ∧
    (statusIds [Call.setConfiguration
        ⟨"12345678" ++ "/" ++ "temperature", "plugin", pluginName,
         "Temperature", "temperature", "celcius"⟩] = [] ∧
     ∃ suffix s₃ tr,
      processEntries partialGateway
          (knownFromConfig
            [⟨"9", some "12345678/humidity", some "SensorDotCommunity"⟩])
          "12345678" [⟨"humidity", "46.40"⟩]
          [notFoundMsg "Temperature" ("12345678" ++ "/" ++ "temperature")] () =
        (Except.ok ([notFoundMsg "Temperature" ("12345678" ++ "/" ++ "temperature")]
          ++ suffix), s₃, tr) ∧
      api partialGateway ()
          ⟨some "12345678", some [⟨"temperature", "23.20"⟩, ⟨"humidity", "46.40"⟩]⟩ =
        (Except.ok ⟨500, String.intercalate "\n"
            (notFoundMsg "Temperature" ("12345678" ++ "/" ++ "temperature") :: suffix)⟩,
         s₃, Call.getConfigurations :: ([Call.setConfiguration
            ⟨"12345678" ++ "/" ++ "temperature", "plugin", pluginName,
             "Temperature", "temperature", "celcius"⟩] ++ tr))) :=
  ⟨rfl, by decide, rfl, by decide, by decide,
   api_registration_failure partialGateway () "12345678" ⟨"temperature", "23.20"⟩
     [⟨"humidity", "46.40"⟩] ("Temperature", "temperature", "celcius")
     (mkRat 116 5) [⟨"9", some "12345678/humidity", some "SensorDotCommunity"⟩]
     () () [Call.setConfiguration
       ⟨"12345678" ++ "/" ++ "temperature", "plugin", pluginName,
        "Temperature", "temperature", "celcius"⟩]
     rfl (by decide) rfl (by decide) (by decide) (by decide)⟩

/-- Helper: when every supported entry's external id is in the known map the
loop issues no registration call, accumulates no error, and issues exactly
one status update per supported entry, carrying its mapped id. -/
theorem processEntries_allknown (gw : Gateway σ) (known : List (String × String))
    (device_id : String) :
    ∀ (entries : List Entry) (errors : List String) (s : σ),
      (∀ e ∈ entries, (pyFloat e.value).isSome) →
      (∀ e ∈ entries, (classify e.value_type).isSome →
        (dictLookup known (device_id ++ "/" ++ e.value_type)).isSome) →
      ∃ s' tr,
        processEntries gw known device_id entries errors s =
          (Except.ok errors, s', tr) ∧
        statusIds tr = entries.filterMap (fun e =>
          if (classify e.value_type).isSome then
            dictLookup known (device_id ++ "/" ++ e.value_type)
          else none) ∧
        tr.filter isSetConfiguration = [] := by
  intro entries
  induction entries with
  | nil =>
    intro errors s _ _
    exact ⟨s, [], by simp [processEntries], by simp [statusIds], by simp⟩
  | cons e rest ih =>
    intro errors s hv hk
    obtain ⟨v, hpf⟩ := Option.isSome_iff_exists.mp (hv e (List.mem_cons_self e rest))
    have hvrest : ∀ e' ∈ rest, (pyFloat e'.value).isSome :=
      fun e' he' => hv e' (List.mem_cons_of_mem e he')
    have hkrest : ∀ e' ∈ rest, (classify e'.value_type).isSome →
        (dictLookup known (device_id ++ "/" ++ e'.value_type)).isSome :=
      fun e' he' => hk e' (List.mem_cons_of_mem e he')
    cases hc : classify e.value_type with
    | none =>
      obtain ⟨s', tr, hp, hs, hz⟩ := ih errors s hvrest hkrest
      exact ⟨s', tr, by simp [processEntries, hpf, hc, hp],
        by simp [hc, hs], hz⟩
    | some nqu =>
      have : (dictLookup known (device_id ++ "/" ++ e.value_type)).isSome :=
        hk e (List.mem_cons_self e rest) (by simp [hc])
      obtain ⟨i, hki⟩ := Option.isSome_iff_exists.mp this
      obtain ⟨s', tr, hp, hs, hz⟩ := ih errors (_update_sensor gw s i v).1 hvrest hkrest
      refine ⟨s', (_update_sensor gw s i v).2 ++ tr, ?_, ?_, ?_⟩
      · simp [processEntries, hpf, hc, hki, hp]
      · simp [statusIds, List.filterMap_append, _update_sensor, hc, hki]
        simp only [statusIds] at hs
        exact hs
      · simp [_update_sensor, List.filter_append, isSetConfiguration, hz]

/-- C5: when every supported entry of the report resolves through the known
sensor map, the response is status 200 with body "success" whatever the
gateway answers to the status updates — the `setStatus` responses are
unconstrained here, and `_update_sensor` discards them, so update failures
are never added to the per-request error list. -/
theorem api_update_failures_swallowed (gw : Gateway σ) (s₀ : σ) (d : String)
    (entries : List Entry)
    (hv : ∀ e ∈ entries, (pyFloat e.value).isSome)
    (hk : ∀ e ∈ entries, (classify e.value_type).isSome →
      (dictLookup (knownFromConfig (gw.getConfigurations s₀).1)
        (d ++ "/" ++ e.value_type)).isSome) :
    (api gw s₀ ⟨some d, some entries⟩).1 = Except.ok ⟨200, "success"⟩ := by
  obtain ⟨s', tr, hp, _, _⟩ := processEntries_allknown gw
    (knownFromConfig (gw.getConfigurations s₀).1) d entries [] (gw.getConfigurations s₀).2
    hv hk
  simp [api, _get_known_sensors, hp]

/-- Gateway over a unit state that knows the temperature sensor of device
"12345678" under id "42" but rejects every write (JSON null responses), so
all status updates fail. -/
def failingUpdateGateway : Gateway Unit :=
  ⟨fun s => ([⟨"42", some "12345678/temperature", some "SensorDotCommunity"⟩], s),
   fun s _ => (ApiResponse.null, s),
   fun s _ _ => (ApiResponse.null, s)⟩

/-- Witness for `api_update_failures_swallowed`: on `failingUpdateGateway`
the status update's response is null (a failure), yet the request still
responds 200 "success". -/
theorem api_update_failures_swallowed_witness :
    (∀ e ∈ ([⟨"temperature", "23.20"⟩] : List Entry), (pyFloat e.value).isSome) ∧
    (∀ e ∈ ([⟨"temperature", "23.20"⟩] : List Entry),
      (classify e.value_type).isSome →
      (dictLookup (knownFromConfig (failingUpdateGateway.getConfigurations ()).1)
        ("12345678" ++ "/" ++ e.value_type)).isSome) ∧
    (api failingUpdateGateway ()
      ⟨some "12345678", some [⟨"temperature", "23.20"⟩]⟩).1 =
      Except.ok ⟨200, "success"⟩ :=
  ⟨by decide, by decide,
   api_update_failures_swallowed failingUpdateGateway () "12345678"
     [⟨"temperature", "23.20"⟩] (by decide) (by decide)⟩

/-- C10: every binding of the known sensor map is backed by a configuration
record whose source name is the adapter's name and whose external_id is
neither null nor empty (and the bound key is that external id); consequently
every resolution through the map comes from such a record, so null- or
empty-external_id records are never used for resolution even when their
source name matches. -/
theorem knownFromConfig_sound (config : List SensorConfig) :
    (∀ k i : String, (k, i) ∈ knownFromConfig config →
      ∃ x ∈ config, x.source_name = some pluginName ∧ x.external_id = some k ∧
        k ≠ "" ∧ x.id = i) ∧
    (∀ k i : String, dictLookup (knownFromConfig config) k = some i →
      ∃ x ∈ config, x.source_name = some pluginName ∧ x.external_id = some k ∧
        k ≠ "" ∧ x.id = i) := by
  have base : ∀ k i : String, (k, i) ∈ knownFromConfig config →
      ∃ x ∈ config, x.source_name = some pluginName ∧ x.external_id = some k ∧
        k ≠ "" ∧ x.id = i := by
    intro k i h
    simp only [knownFromConfig, List.mem_map, List.mem_filter] at h
    obtain ⟨x, ⟨hx, hP⟩, hfx⟩ := h
    simp only [Bool.and_eq_true, beq_iff_eq, Bool.not_eq_true', beq_eq_false_iff_ne,
      ne_eq] at hP
    obtain ⟨⟨hsrc, hnn⟩, hne⟩ := hP
    cases hext : x.external_id with
    | none => exact absurd hext hnn
    | some y =>
      refine ⟨x, hx, hsrc, ?_⟩
      rw [hext] at hfx hne
      simp only [Option.getD_some] at hfx
      obtain ⟨hk, hi⟩ := Prod.mk.injEq .. ▸ hfx
      subst hk
      exact ⟨hext, fun he => hne (by rw [he]), hi⟩
  refine ⟨base, ?_⟩
  intro k i h
  simp only [dictLookup, Option.map_eq_some'] at h
  obtain ⟨p, hfind, hp2⟩ := h
  have hmem : p ∈ (knownFromConfig config).reverse := List.mem_of_find?_eq_some hfind
  have hpk : p.1 = k := by
    have := List.find?_some hfind
    simpa [beq_iff_eq] using this
  have : (k, i) ∈ knownFromConfig config := by
    have : p = (k, i) := Prod.ext hpk hp2
    rw [← this]
    exact List.mem_reverse.mp hmem
  exact base k i this

/-- Witness for `knownFromConfig_sound`: a configuration holding a null
external id, an empty external id, a foreign source and one genuine record;
only the genuine record yields a binding, and the lookup of its key is
backed by it. -/
theorem knownFromConfig_sound_witness :
    knownFromConfig
        [⟨"1", none, some pluginName⟩, ⟨"2", some "", some pluginName⟩,
         ⟨"3", some "12345678/temperature", some pluginName⟩,
         ⟨"4", some "x/y", some "Other"⟩] =
      [("12345678/temperature", "3")] ∧
    dictLookup (knownFromConfig
        [⟨"1", none, some pluginName⟩, ⟨"2", some "", some pluginName⟩,
         ⟨"3", some "12345678/temperature", some pluginName⟩,
         ⟨"4", some "x/y", some "Other"⟩]) "12345678/temperature" = some "3" ∧
    (∃ x ∈ ([⟨"1", none, some pluginName⟩, ⟨"2", some "", some pluginName⟩,
         ⟨"3", some "12345678/temperature", some pluginName⟩,
         ⟨"4", some "x/y", some "Other"⟩] : List SensorConfig),
      x.source_name = some pluginName ∧ x.external_id = some "12345678/temperature" ∧
        "12345678/temperature" ≠ "" ∧ x.id = "3") :=
  ⟨by decide, by decide,
   (knownFromConfig_sound
     [⟨"1", none, some pluginName⟩, ⟨"2", some "", some pluginName⟩,
      ⟨"3", some "12345678/temperature", some pluginName⟩,
      ⟨"4", some "x/y", some "Other"⟩]).2 "12345678/temperature" "3" (by decide)⟩

/-- Configuration records matching an external id for this adapter: the
records both `_register_sensor`'s re-fetch scan and the known-sensor map
draw from. -/
def matchRecords (external_id : String) (config : List SensorConfig) :
    List SensorConfig :=
  config.filter (registeredMatch external_id)

/-- Id of the last record of `config` matching `external_id` for this
adapter: what the known-sensor map resolves a nonempty external id to. -/
def lastMatchId (external_id : String) (config : List SensorConfig) :
    Option String :=
  ((matchRecords external_id config).reverse.head?).map (fun x => x.id)

/-- Helper: a composite external id `device_id/value_type` is never the
empty string. -/
theorem slash_ne_empty (a b : String) : a ++ "/" ++ b ≠ "" := by
  intro h
  have hlen := congrArg String.length h
  rw [String.length_append, String.length_append] at hlen
  have h1 : ("/" : String).length = 1 := rfl
  have h0 : ("" : String).length = 0 := rfl
  omega

/-- Helper: the membership-and-filter predicate of the known-sensor map,
tested against a fixed nonempty key `x`, coincides with the re-fetch scan
predicate `registeredMatch x`. -/
theorem knownPred_eq_registeredMatch (x : String) (hx : x ≠ "")
    (r : SensorConfig) :
    ((r.source_name == some pluginName
        && !(r.external_id == (none : Option String))
        && !(r.external_id == some "")) && (r.external_id.getD "" == x))
      = registeredMatch x r := by
  cases hext : r.external_id with
  | none => simp [registeredMatch, hext]
  | some y =>
    by_cases hy : y = x
    · subst hy
      simp [registeredMatch, hext, hx, Ne.symm hx]
    · have hfalse : (y == x) = false := beq_eq_false_iff_ne.mpr hy
      simp [registeredMatch, hext, hfalse]

/-- Helper: looking a nonempty external id up in the known-sensor map finds
the id of the last matching configuration record. -/
theorem dictLookup_knownFromConfig (x : String) (hx : x ≠ "")
    (config : List SensorConfig) :
    dictLookup (knownFromConfig config) x = lastMatchId x config := by
  unfold dictLookup lastMatchId matchRecords knownFromConfig
  rw [← List.map_reverse, ← List.filter_reverse]
  rw [← List.filter_head?, List.filter_map]
  rw [List.filter_filter]
  have hpred : ∀ r ∈ config.reverse,
      (((fun q : String × String => q.1 == x) ∘
          (fun c : SensorConfig => (c.external_id.getD "", c.id))) r &&
        (r.source_name == some pluginName
          && !(r.external_id == (none : Option String))
          && !(r.external_id == some "")))
        = registeredMatch x r := by
    intro r _
    rw [Bool.and_comm]
    exact knownPred_eq_registeredMatch x hx r
  rw [List.filter_congr hpred]
  rw [List.filter_reverse]
  rw [List.head?_map]
  cases (List.filter (registeredMatch x) config).reverse.head? <;> rfl

/-- State of the modelled gateway: the sensor-configuration list, a counter
producing fresh sensor ids, and the sequence of pushed (id, value) status
updates. -/
structure GwState where
  config : List SensorConfig
  nextId : Nat
  values : List (String × Rat)
deriving DecidableEq, Repr

/-- Modelled from the spec: the remote gateway behind `webinterface` is not
part of this repository.  §6 lists its three calls; §3's data model states
that a sensor external id "uniquely identifies a managed sensor", so
`set_sensor_configuration` for an (external_id, source name) pair that
already has a record keeps the configuration unchanged and otherwise appends
a fresh record; either way it reports success, as does `set_sensor_status`,
which records the pushed value. -/
def canonGateway : Gateway GwState :=
  ⟨fun s => (s.config, s),
   fun s p =>
     if s.config.any (fun r => r.external_id == some p.external_id
         && r.source_name == some p.source_name) then
       (ApiResponse.obj (some true), s)
     else
       (ApiResponse.obj (some true),
        ⟨s.config ++ [⟨toString s.nextId, some p.external_id, some p.source_name⟩],
         s.nextId + 1, s.values⟩),
   fun s i v => (ApiResponse.obj (some true), ⟨s.config, s.nextId, s.values ++ [(i, v)]⟩)⟩

/-- Invariant of the modelled gateway state during one request: the current
configuration is the initial snapshot `c₀` followed by records this request
registered, each of which is the unique match for its (nonempty) external
id. -/
def Jinv (c₀ : List SensorConfig) (s : GwState) : Prop :=
  ∃ Δ, s.config = c₀ ++ Δ ∧ ∀ r ∈ Δ, r.source_name = some pluginName ∧
    ∃ x, r.external_id = some x ∧ x ≠ "" ∧ matchRecords x s.config = [r]

/-- Helper: the invariant holds at the start of a request. -/
theorem Jinv_start (c₀ : List SensorConfig) (s : GwState)
    (h : s.config = c₀) : Jinv c₀ s :=
  ⟨[], by simp [h], by simp⟩

/-- Helper: the invariant only depends on the configuration component. -/
theorem Jinv_congr (c₀ : List SensorConfig) (s t : GwState)
    (h : s.config = t.config) (hJ : Jinv c₀ s) : Jinv c₀ t := by
  obtain ⟨Δ, h1, h2⟩ := hJ
  exact ⟨Δ, h ▸ h1, by rw [← h]; exact h2⟩

/-- Helper: matching records of a concatenation. -/
theorem matchRecords_append (x : String) (a b : List SensorConfig) :
    matchRecords x (a ++ b) = matchRecords x a ++ matchRecords x b :=
  List.filter_append a b

/-- Helper: no last match exactly when there is no matching record. -/
theorem lastMatchId_eq_none (x : String) (c : List SensorConfig) :
    lastMatchId x c = none ↔ matchRecords x c = [] := by
  simp [lastMatchId]

/-- Helper: when the matches form the singleton `[r]`, the last match id and
the re-fetch scan both return `r.id`. -/
theorem lastMatchId_of_singleton (x : String) (c : List SensorConfig)
    (r : SensorConfig) (h : matchRecords x c = [r]) :
    lastMatchId x c = some r.id := by
  simp [lastMatchId, h]

/-- Helper: the re-fetch scan returns the head of the matching records. -/
theorem find?_registeredMatch (x : String) (c : List SensorConfig) :
    c.find? (registeredMatch x) = (matchRecords x c).head? :=
  (List.filter_head? (registeredMatch x) c).symm

/-- Helper: under the invariant, an external id that already had matching
records in the initial snapshot gains none: its matches in the current
configuration are exactly the initial ones. -/
theorem matchRecords_of_inv (c₀ : List SensorConfig) (s : GwState) (x : String)
    (hJ : Jinv c₀ s) (hne : matchRecords x c₀ ≠ []) :
    matchRecords x s.config = matchRecords x c₀ := by
  obtain ⟨Δ, hcfg, hΔ⟩ := hJ
  have hsplit : matchRecords x s.config =
      matchRecords x c₀ ++ matchRecords x Δ := by
    rw [hcfg]; exact matchRecords_append x c₀ Δ
  have hnone : matchRecords x Δ = [] := by
    unfold matchRecords
    rw [List.filter_eq_nil_iff]
    intro r hr hmatch
    obtain ⟨_, y, hy, _, huniq⟩ := hΔ r hr
    have hx : r.external_id = some x := by
      have := hmatch
      simp only [registeredMatch, Bool.and_eq_true, beq_iff_eq] at this
      exact this.1
    have hyx : y = x := by
      rw [hy] at hx
      exact Option.some.injEq y x ▸ hx
    rw [hyx] at huniq
    have hr' : r ∈ matchRecords x Δ :=
      List.mem_filter.mpr ⟨hr, hmatch⟩
    have hlen := congrArg List.length (hsplit ▸ huniq)
    rw [List.length_append] at hlen
    have h1 : 0 < (matchRecords x c₀).length := List.length_pos.mpr hne
    have h2 : 0 < (matchRecords x Δ).length :=
      List.length_pos.mpr (List.ne_nil_of_mem hr')
    simp at hlen
    omega
  rw [hsplit, hnone, List.append_nil]

/-- Helper: registering a fresh external id against the modelled gateway
always succeeds and resolves: the returned id is that of the unique matching
record of the resulting configuration, the invariant is preserved, and the
matches of every previously-matched external id are untouched. -/
theorem register_canon (c₀ : List SensorConfig) (s : GwState)
    (name x physical_quantity unit : String)
    (hJ : Jinv c₀ s) (hx : x ≠ "") (hk : matchRecords x c₀ = []) :
    ∃ r s' calls,
      _register_sensor canonGateway s name x physical_quantity unit =
        (some r.id, s', calls) ∧
      Jinv c₀ s' ∧
      matchRecords x s'.config = [r] ∧
      (∀ y, matchRecords y s.config ≠ [] →
        matchRecords y s'.config = matchRecords y s.config) := by
  cases hany : s.config.any (registeredMatch x) with
  | true =>
    have hne : matchRecords x s.config ≠ [] := by
      obtain ⟨a, ha, hpa⟩ := List.any_eq_true.mp hany
      exact List.ne_nil_of_mem (List.mem_filter.mpr ⟨ha, hpa⟩)
    obtain ⟨Δ, hcfg, hΔ⟩ := hJ
    have hmΔ : matchRecords x s.config = matchRecords x Δ := by
      rw [hcfg, matchRecords_append, hk, List.nil_append]
    obtain ⟨r, hrmem⟩ := List.exists_mem_of_ne_nil _ (hmΔ ▸ hne)
    have hrΔ : r ∈ Δ := (List.mem_filter.mp hrmem).1
    have hrmatch : registeredMatch x r = true := (List.mem_filter.mp hrmem).2
    obtain ⟨_, y, hy, _, huniq⟩ := hΔ r hrΔ
    have hyx : y = x := by
      have hxr : r.external_id = some x := by
        simp only [registeredMatch, Bool.and_eq_true, beq_iff_eq] at hrmatch
        exact hrmatch.1
      rw [hy] at hxr
      exact Option.some.injEq y x ▸ hxr
    rw [hyx] at huniq
    refine ⟨r, s, [Call.setConfiguration
      ⟨x, "plugin", pluginName, name, physical_quantity, unit⟩,
      Call.getConfigurations], ?_, ⟨Δ, hcfg, hΔ⟩, huniq, fun y _ => rfl⟩
    show _register_sensor canonGateway s name x physical_quantity unit = _
    unfold _register_sensor
    dsimp only
    have hcond : (canonGateway.setConfiguration s
        ⟨x, "plugin", pluginName, name, physical_quantity, unit⟩) =
        (ApiResponse.obj (some true), s) := by
      show (if s.config.any (registeredMatch x) then _ else _) = _
      rw [hany]
      simp
    rw [hcond]
    simp only [ApiResponse.isSuccess, Bool.not_true, Bool.false_eq_true,
      if_false, ite_false]
    have hget : canonGateway.getConfigurations s = (s.config, s) := rfl
    rw [hget]
    rw [find?_registeredMatch, huniq]
    rfl
  | false =>
    have hmr : matchRecords x s.config = [] := by
      unfold matchRecords
      rw [List.filter_eq_nil_iff]
      intro a ha hpa
      exact (List.any_eq_false.mp hany a ha) hpa
    obtain ⟨Δ, hcfg, hΔ⟩ := hJ
    refine ⟨⟨toString s.nextId, some x, some pluginName⟩,
      ⟨s.config ++ [⟨toString s.nextId, some x, some pluginName⟩],
       s.nextId + 1, s.values⟩,
      [Call.setConfiguration
        ⟨x, "plugin", pluginName, name, physical_quantity, unit⟩,
       Call.getConfigurations], ?_, ?_, ?_, ?_⟩
    · show _register_sensor canonGateway s name x physical_quantity unit = _
      unfold _register_sensor
      dsimp only
      have hcond : (canonGateway.setConfiguration s
          ⟨x, "plugin", pluginName, name, physical_quantity, unit⟩) =
          (ApiResponse.obj (some true),
           ⟨s.config ++ [⟨toString s.nextId, some x, some pluginName⟩],
            s.nextId + 1, s.values⟩) := by
        show (if s.config.any (registeredMatch x) then _ else _) = _
        rw [hany]
        simp
      rw [hcond]
      simp only [ApiResponse.isSuccess, Bool.not_true, Bool.false_eq_true,
        if_false, ite_false]
      have hget : canonGateway.getConfigurations
          (⟨s.config ++ [⟨toString s.nextId, some x, some pluginName⟩],
            s.nextId + 1, s.values⟩ : GwState) =
          (s.config ++ [⟨toString s.nextId, some x, some pluginName⟩],
           ⟨s.config ++ [⟨toString s.nextId, some x, some pluginName⟩],
            s.nextId + 1, s.values⟩) := rfl
      rw [hget]
      rw [find?_registeredMatch, matchRecords_append, hmr, List.nil_append]
      have hrecmatch : matchRecords x
          [(⟨toString s.nextId, some x, some pluginName⟩ : SensorConfig)] =
          [⟨toString s.nextId, some x, some pluginName⟩] := by
        simp [matchRecords, registeredMatch]
      rw [hrecmatch]
      rfl
    · refine ⟨Δ ++ [⟨toString s.nextId, some x, some pluginName⟩], ?_, ?_⟩
      · show s.config ++ _ = _
        rw [hcfg, List.append_assoc]
      · intro r hr
        rcases List.mem_append.mp hr with hrΔ | hrnew
        · obtain ⟨hsrc, y, hy, hyne, huniq⟩ := hΔ r hrΔ
          refine ⟨hsrc, y, hy, hyne, ?_⟩
          show matchRecords y (s.config ++ _) = [r]
          rw [matchRecords_append]
          have hynx : y ≠ x := by
            intro hyx
            rw [hyx, hmr] at huniq
            exact List.cons_ne_nil r [] huniq.symm
          have hxny : ¬ x = y := fun h => hynx h.symm
          have hnew : matchRecords y
              [(⟨toString s.nextId, some x, some pluginName⟩ : SensorConfig)] =
              [] := by
            simp [matchRecords, registeredMatch, hxny]
          rw [hnew, List.append_nil]
          exact huniq
        · have hr' : r = ⟨toString s.nextId, some x, some pluginName⟩ :=
            List.mem_singleton.mp hrnew
          subst hr'
          refine ⟨rfl, x, rfl, hx, ?_⟩
          show matchRecords x (s.config ++ _) = _
          rw [matchRecords_append, hmr, List.nil_append]
          simp [matchRecords, registeredMatch]
    · show matchRecords x (s.config ++ _) = _
      rw [matchRecords_append, hmr, List.nil_append]
      simp [matchRecords, registeredMatch]
    · intro y hyne
      show matchRecords y (s.config ++ _) = _
      rw [matchRecords_append]
      have hynx : y ≠ x := by
        intro hyx
        rw [hyx] at hyne
        exact hyne hmr
      have hxny : ¬ x = y := fun h => hynx h.symm
      have hnew : matchRecords y
          [(⟨toString s.nextId, some x, some pluginName⟩ : SensorConfig)] =
          [] := by
        simp [matchRecords, registeredMatch, hxny]
      rw [hnew, List.append_nil]

/-- Helper: the update trace of a concatenation. -/
theorem statusIds_append (a b : List Call) :
    statusIds (a ++ b) = statusIds a ++ statusIds b :=
  List.filterMap_append a b _

/-- Helper: one full pass of the loop against the modelled gateway, started
from an invariant state: it never fails (every registration resolves), the
invariant and the matches of previously-matched external ids are preserved,
and the update trace carries, for each supported entry, exactly the id the
final configuration's last match assigns to its external id — which is
defined for every supported entry. -/
theorem run1_canon (c₀ : List SensorConfig) (d : String) :
    ∀ (entries : List Entry) (errors : List String) (s : GwState),
      Jinv c₀ s →
      (∀ e ∈ entries, (pyFloat e.value).isSome) →
      ∃ s' tr,
        processEntries canonGateway (knownFromConfig c₀) d entries errors s =
          (Except.ok errors, s', tr) ∧
        Jinv c₀ s' ∧
        (∀ y, matchRecords y s.config ≠ [] →
          matchRecords y s'.config = matchRecords y s.config) ∧
        statusIds tr = entries.filterMap (fun e =>
          if (classify e.value_type).isSome then
            lastMatchId (d ++ "/" ++ e.value_type) s'.config
          else none) ∧
        (∀ e ∈ entries, (classify e.value_type).isSome →
          (lastMatchId (d ++ "/" ++ e.value_type) s'.config).isSome) := by
  intro entries
  induction entries with
  | nil =>
    intro errors s hJ _
    exact ⟨s, [], by simp [processEntries], hJ, fun y _ => rfl,
      by simp [statusIds], by simp⟩
  | cons e rest ih =>
    intro errors s hJ hv
    obtain ⟨v, hpf⟩ := Option.isSome_iff_exists.mp (hv e (List.mem_cons_self e rest))
    have hvrest : ∀ e' ∈ rest, (pyFloat e'.value).isSome :=
      fun e' he' => hv e' (List.mem_cons_of_mem e he')
    cases hc : classify e.value_type with
    | none =>
      obtain ⟨s', tr, hp, hJ', hstab, hmap, hsome⟩ := ih errors s hJ hvrest
      refine ⟨s', tr, by simp [processEntries, hpf, hc, hp], hJ', hstab, ?_, ?_⟩
      · simp [hc, hmap]
      · intro e' he' hce'
        rcases List.mem_cons.mp he' with he'' | he''
        · rw [he''] at hce'
          simp [hc] at hce'
        · exact hsome e' he'' hce'
    | some nqu =>
      have hx : d ++ "/" ++ e.value_type ≠ "" := slash_ne_empty d e.value_type
      cases hdl : dictLookup (knownFromConfig c₀) (d ++ "/" ++ e.value_type) with
      | some i =>
        have hlast : lastMatchId (d ++ "/" ++ e.value_type) c₀ = some i := by
          rw [← dictLookup_knownFromConfig _ hx]
          exact hdl
        have hne0 : matchRecords (d ++ "/" ++ e.value_type) c₀ ≠ [] := by
          intro hnil
          rw [(lastMatchId_eq_none _ _).mpr hnil] at hlast
          exact Option.noConfusion hlast
        obtain ⟨s', tr, hp, hJ', hstab, hmap, hsome⟩ :=
          ih errors (_update_sensor canonGateway s i v).1 (by exact hJ) hvrest
        have hmid : ∀ y, matchRecords y
            (_update_sensor canonGateway s i v).1.config = matchRecords y s.config :=
          fun y => rfl
        have hx_stab : matchRecords (d ++ "/" ++ e.value_type) s'.config =
            matchRecords (d ++ "/" ++ e.value_type) c₀ := by
          have h1 : matchRecords (d ++ "/" ++ e.value_type) s.config =
              matchRecords (d ++ "/" ++ e.value_type) c₀ :=
            matchRecords_of_inv c₀ s _ hJ hne0
          rw [hstab _ (by rw [hmid, h1]; exact hne0), hmid, h1]
        have hFe : lastMatchId (d ++ "/" ++ e.value_type) s'.config = some i := by
          unfold lastMatchId
          rw [hx_stab]
          exact hlast
        refine ⟨s', (_update_sensor canonGateway s i v).2 ++ tr, ?_, hJ', ?_, ?_, ?_⟩
        · simp [processEntries, hpf, hc, hdl, hp]
        · intro y hy
          rw [hstab y (by rw [hmid]; exact hy), hmid]
        · have hu : statusIds (_update_sensor canonGateway s i v).2 = [i] := rfl
          rw [statusIds_append, hu, hmap]
          simp [hc, hFe]
        · intro e' he' hce'
          rcases List.mem_cons.mp he' with he'' | he''
          · rw [he'']
            simp [hFe]
          · exact hsome e' he'' hce'
      | none =>
        have hk0 : matchRecords (d ++ "/" ++ e.value_type) c₀ = [] := by
          rw [dictLookup_knownFromConfig _ hx] at hdl
          exact (lastMatchId_eq_none _ _).mp hdl
        obtain ⟨r, s₂, calls₂, hregeq, hJ₂, hmx, hstab₂⟩ :=
          register_canon c₀ s nqu.1 (d ++ "/" ++ e.value_type) nqu.2.1 nqu.2.2
            hJ hx hk0
        obtain ⟨s', tr, hp, hJ', hstab, hmap, hsome⟩ :=
          ih errors (_update_sensor canonGateway s₂ r.id v).1 (by exact hJ₂) hvrest
        have hmid : ∀ y, matchRecords y
            (_update_sensor canonGateway s₂ r.id v).1.config =
            matchRecords y s₂.config :=
          fun y => rfl
        have hx_fin : matchRecords (d ++ "/" ++ e.value_type) s'.config = [r] := by
          rw [hstab _ (by rw [hmid, hmx]; exact List.cons_ne_nil r []), hmid, hmx]
        have hFe : lastMatchId (d ++ "/" ++ e.value_type) s'.config = some r.id :=
          lastMatchId_of_singleton _ _ _ hx_fin
        refine ⟨s', calls₂ ++ ((_update_sensor canonGateway s₂ r.id v).2 ++ tr),
          ?_, hJ', ?_, ?_, ?_⟩
        · simp [processEntries, hpf, hc, hdl, hregeq, hp]
        · intro y hy
          have h2 : matchRecords y s₂.config = matchRecords y s.config :=
            hstab₂ y hy
          rw [hstab y (by rw [hmid, h2]; exact hy), hmid, h2]
        · have hu : statusIds (_update_sensor canonGateway s₂ r.id v).2 = [r.id] := rfl
          have hreg0 : statusIds calls₂ = [] := by
            have := statusIds_register canonGateway s nqu.1
              (d ++ "/" ++ e.value_type) nqu.2.1 nqu.2.2
            rw [hregeq] at this
            exact this
          rw [statusIds_append, statusIds_append, hu, hreg0, hmap]
          simp [hc, hFe]
        · intro e' he' hce'
          rcases List.mem_cons.mp he' with he'' | he''
          · rw [he'']
            simp [hFe]
          · exact hsome e' he'' hce'

/-- C9: submitting the same report twice to the modelled gateway, the second
submission starting from the gateway state the first submission produced:
the two submissions resolve the same sensor ids — their status-update traces
carry equal id lists, hence the same set — and the second submission issues
zero registration calls. -/
theorem api_idempotent (d : String) (entries : List Entry) (s₀ : GwState)
    (hv : ∀ e ∈ entries, (pyFloat e.value).isSome) :
    statusIds (api canonGateway (api canonGateway s₀ ⟨some d, some entries⟩).2.1
        ⟨some d, some entries⟩).2.2 =
      statusIds (api canonGateway s₀ ⟨some d, some entries⟩).2.2 ∧
    (∀ i, i ∈ statusIds (api canonGateway
        (api canonGateway s₀ ⟨some d, some entries⟩).2.1
        ⟨some d, some entries⟩).2.2 ↔
      i ∈ statusIds (api canonGateway s₀ ⟨some d, some entries⟩).2.2) ∧
    List.filter isSetConfiguration
      (api canonGateway (api canonGateway s₀ ⟨some d, some entries⟩).2.1
        ⟨some d, some entries⟩).2.2 = [] := by
  obtain ⟨s₁, tr₁, hp₁, hJ₁, hstab₁, hmap₁, hsome₁⟩ :=
    run1_canon s₀.config d entries [] s₀ (Jinv_start s₀.config s₀ rfl) hv
  have hapi₁ : api canonGateway s₀ ⟨some d, some entries⟩ =
      (Except.ok ⟨200, "success"⟩, s₁, Call.getConfigurations :: tr₁) := by
    have hget : canonGateway.getConfigurations s₀ = (s₀.config, s₀) := rfl
    simp [api, _get_known_sensors, hget, hp₁]
  have hk₂ : ∀ e ∈ entries, (classify e.value_type).isSome →
      (dictLookup (knownFromConfig s₁.config) (d ++ "/" ++ e.value_type)).isSome := by
    intro e he hce
    rw [dictLookup_knownFromConfig _ (slash_ne_empty d e.value_type)]
    exact hsome₁ e he hce
  obtain ⟨s₂, tr₂, hp₂, hsid₂, hnoreg₂⟩ :=
    processEntries_allknown canonGateway (knownFromConfig s₁.config) d entries []
      s₁ hv hk₂
  have hapi₂ : api canonGateway s₁ ⟨some d, some entries⟩ =
      (Except.ok ⟨200, "success"⟩, s₂, Call.getConfigurations :: tr₂) := by
    have hget : canonGateway.getConfigurations s₁ = (s₁.config, s₁) := rfl
    simp [api, _get_known_sensors, hget, hp₂]
  have hfun : (fun e : Entry => if (classify e.value_type).isSome then
      dictLookup (knownFromConfig s₁.config) (d ++ "/" ++ e.value_type) else none) =
      (fun e : Entry => if (classify e.value_type).isSome then
      lastMatchId (d ++ "/" ++ e.value_type) s₁.config else none) := by
    funext e
    rw [dictLookup_knownFromConfig _ (slash_ne_empty d e.value_type)]
  have htr : statusIds tr₂ = statusIds tr₁ := by
    rw [hsid₂, hfun, ← hmap₁]
  rw [hapi₁]
  rw [hapi₂]
  have hcons : statusIds (Call.getConfigurations :: tr₂) =
      statusIds (Call.getConfigurations :: tr₁) := htr
  exact ⟨hcons, fun i => hcons ▸ Iff.rfl, hnoreg₂⟩

/-- Witness for `api_idempotent`: the spec's report submitted twice against
an initially empty modelled gateway. -/
theorem api_idempotent_witness :
    (∀ e ∈ ([⟨"temperature", "23.20"⟩] : List Entry), (pyFloat e.value).isSome) ∧
    statusIds (api canonGateway (api canonGateway ⟨[], 0, []⟩
        ⟨some "12345678", some [⟨"temperature", "23.20"⟩]⟩).2.1
        ⟨some "12345678", some [⟨"temperature", "23.20"⟩]⟩).2.2 =
      statusIds (api canonGateway ⟨[], 0, []⟩
        ⟨some "12345678", some [⟨"temperature", "23.20"⟩]⟩).2.2 ∧
    List.filter isSetConfiguration
      (api canonGateway (api canonGateway ⟨[], 0, []⟩
        ⟨some "12345678", some [⟨"temperature", "23.20"⟩]⟩).2.1
        ⟨some "12345678", some [⟨"temperature", "23.20"⟩]⟩).2.2 = [] :=
  ⟨by decide,
   (api_idempotent "12345678" [⟨"temperature", "23.20"⟩] ⟨[], 0, []⟩ (by decide)).1,
   (api_idempotent "12345678" [⟨"temperature", "23.20"⟩] ⟨[], 0, []⟩
     (by decide)).2.2⟩

end SensorDotCommunity
